import Mathlib

/-!
Verification of the transaction-flow extraction and risk-scoring core of
`app.py` (Solana AML tracker), as a shallow embedding in Lean 4.

Modelling conventions:
* JSON dictionaries with a fixed set of observed keys become structures whose
  fields are `Option`-valued (a `none` field models an absent key).
* Python `dict` accumulators become association lists (`List (String × Nat)`)
  with the update discipline of Python dicts: updating an existing key keeps
  its position, a new key is appended at the end.
* Python floats are modelled as exact rationals (`ℚ`); `x / 1e9` becomes
  division in `ℚ`.
* Code that can raise a Python exception (`KeyError`, JSON decode errors) is
  embedded in `Except String`; a `.error` value marks an uncaught exception.
* Network I/O (`requests.post`) is replaced by explicit oracle arguments: the
  functions take the downgraded RPC responses as parameters, and the inbound
  request handler additionally records which RPC calls it issues.
-/

/-- The `"info"` block of a parsed instruction: optional `source`,
`destination` and `lamports` keys, as read by `extract_transaction_flows`
(`parsed.get("source")`, `parsed.get("destination")`,
`parsed.get("lamports", 0)`). -/
structure ParsedInfo where
  source : Option String
  destination : Option String
  lamports : Option Nat
deriving DecidableEq

/-- The `"parsed"` entry of an instruction; the code requires
`"info" in instruction["parsed"]`. -/
structure ParsedBlock where
  info : Option ParsedInfo
deriving DecidableEq

/-- One entry of `details["transaction"]["message"]["instructions"]`; the code
requires `"parsed" in instruction`. -/
structure Instruction where
  parsed : Option ParsedBlock
deriving DecidableEq

/-- `details["transaction"]["message"]`: the `"instructions"` key is accessed
unconditionally, so it is modelled as optional (absent key = `none`). -/
structure TxMessage where
  instructions : Option (List Instruction)
deriving DecidableEq

/-- `details["transaction"]`: the `"message"` key is accessed unconditionally,
so it is modelled as optional (absent key = `none`). -/
structure TxTransaction where
  message : Option TxMessage
deriving DecidableEq

/-- A fetched transaction detail record. The guard in the source checks
`not details or "transaction" not in details`; a falsy (`{}` / `null`) detail
is modelled as `none` at the call site (`Option TransactionDetail`), and a
truthy detail without a `"transaction"` key has `transaction = none`. -/
structure TransactionDetail where
  transaction : Option TxTransaction
deriving DecidableEq

/-- Lookup in a Python-dict model: first (and only) binding of the key. -/
def dictFind (d : List (String × Nat)) (k : String) : Option Nat :=
  match d with
  | [] => none
  | (k', v) :: rest => if k' = k then some v else dictFind rest k

/-- Update in a Python-dict model: `d[k] = v` replaces the binding in place if
`k` is present, otherwise appends `(k, v)` at the end (insertion order). -/
def dictInsert (d : List (String × Nat)) (k : String) (v : Nat) : List (String × Nat) :=
  match d with
  | [] => [(k, v)]
  | (k', v') :: rest => if k' = k then (k', v) :: rest else (k', v') :: dictInsert rest k v

/-- The running state of the aggregation loop: `flow_dict` and
`total_volume`. -/
abbrev FlowState := List (String × Nat) × ℚ

/-- The body of the inner instruction loop of `extract_transaction_flows`
(src/app.py lines 85-94): if the instruction has a `parsed.info` block, read
`source`, `destination` and `lamports` (defaulting to `0`), and when
`sender == wallet_address and receiver` (Python truthiness: `receiver` must be
present and non-empty) bump the destination's count and add the converted
amount to the total volume.  `receiver.getD "" ≠ ""` is exactly Python's
truthiness test for the optional string `receiver`. -/
def processInstruction (wallet_address : Option String) (st : FlowState)
    (instruction : Instruction) : FlowState :=
  match instruction.parsed with
  | none => st
  | some parsed =>
    match parsed.info with
    | none => st
    | some info =>
      let sender := info.source
      let receiver := info.destination
      let amount : ℚ := ((info.lamports.getD 0 : Nat) : ℚ) / 1000000000
      if sender = wallet_address ∧ receiver.getD "" ≠ "" then
        (dictInsert st.1 (receiver.getD "") ((dictFind st.1 (receiver.getD "")).getD 0 + 1),
         st.2 + amount)
      else st

/-- One iteration of the outer loop of `extract_transaction_flows` (src/app.py
lines 80-94) on an already-fetched detail record.  The guard
`if not details or "transaction" not in details: continue` skips only a falsy
detail (`none`) or one without the `"transaction"` key; after the guard the
code indexes `["message"]` and `["instructions"]` unconditionally, so an
absent key there raises a `KeyError` (embedded as `.error`). -/
def processDetails (wallet_address : Option String) (st : FlowState)
    (details : Option TransactionDetail) : Except String FlowState :=
  match details with
  | none => .ok st
  | some d =>
    match d.transaction with
    | none => .ok st
    | some t =>
      match t.message with
      | none => .error "KeyError: message"
      | some m =>
        match m.instructions with
        | none => .error "KeyError: instructions"
        | some instructions => .ok (instructions.foldl (processInstruction wallet_address) st)

/-- The outer loop of `extract_transaction_flows`, threading the flow state
through the transaction signatures; `fetch` stands for
`get_transaction_details` (its already-downgraded result). -/
def extractLoop (fetch : String → Option TransactionDetail) (wallet_address : Option String) :
    List String → FlowState → Except String FlowState
  | [], st => .ok st
  | tx :: rest, st =>
    match processDetails wallet_address st (fetch tx) with
    | .error e => .error e
    | .ok st' => extractLoop fetch wallet_address rest st'

/-- `extract_transaction_flows(wallet_address, transactions)` (src/app.py
lines 74-96).  The per-transaction detail lookup is passed as the oracle
`fetch`; the function returns the final `(flow_dict, total_volume)` pair, or
`.error` if the loop raises. -/
def extract_transaction_flows (fetch : String → Option TransactionDetail)
    (wallet_address : Option String) (transactions : List String) :
    Except String FlowState :=
  extractLoop fetch wallet_address transactions ([], 0)

/-- The static denylist `HIGH_RISK_WALLETS` (src/app.py line 12), membership
by exact, case-sensitive string match. -/
def HIGH_RISK_WALLETS : List String :=
  ["FakeRiskyWallet123", "DarknetVendor456", "OFACBlacklisted789"]

/-- `assign_risk_score(transaction_count, total_volume, counterparty_wallets)`
(src/app.py lines 98-105): three sequential score increments followed by the
tier mapping.  At the call site `transaction_count` is the number of distinct
counterparties (`len(transaction_flows)`). -/
def assign_risk_score (transaction_count : Nat) (total_volume : ℚ)
    (counterparty_wallets : List String) : String :=
  let score : Nat := 0
  let score := if transaction_count > 50 then score + 20 else score
  let score := if total_volume > 10000 then score + 30 else score
  let score :=
    if counterparty_wallets.any (fun wallet => HIGH_RISK_WALLETS.contains wallet)
    then score + 50 else score
  if score ≥ 50 then "High Risk" else if score ≥ 30 then "Medium Risk" else "Low Risk"

/-- The tiered strategy exactly as the spec words it (§4.3): a sum of three
independent contributions, then the tier map.  Stated separately from
`assign_risk_score` so that agreement between the code and the spec's wording
is a theorem, not a definition. -/
def tieredRiskSpec (counterparties : Nat) (volume : ℚ) (addrs : List String) : String :=
  let score : Nat :=
    (if counterparties > 50 then 20 else 0) +
    (if volume > 10000 then 30 else 0) +
    (if addrs.any (fun a => HIGH_RISK_WALLETS.contains a) then 50 else 0)
  if score ≥ 50 then "High Risk" else if score ≥ 30 then "Medium Risk" else "Low Risk"

/-- One entry of the `getSignaturesForAddress` RPC `result` array; the code
reads `tx["signature"]`, so an absent key raises a `KeyError`. -/
structure SignatureEntry where
  signature : Option String
deriving DecidableEq

/-- The decoded JSON body of a `getSignaturesForAddress` response; `result`
is read with `.get("result", [])`. -/
structure SignaturesRpcBody where
  result : Option (List SignatureEntry)
deriving DecidableEq

/-- An HTTP response to the signatures RPC: status code plus decoded JSON
body, where `body = none` models a payload that is not valid JSON (on which
`response.json()` raises). -/
structure HttpSignaturesResponse where
  status_code : Nat
  body : Option SignaturesRpcBody
deriving DecidableEq

/-- `get_wallet_transactions` (src/app.py lines 62-66), with the network
exchange replaced by the response it produced.  On a 200 status the code runs
`[tx["signature"] for tx in response.json().get("result", [])]`: decoding a
non-JSON body raises, an absent `result` defaults to `[]`, and an entry
without a `signature` key raises; any non-200 status yields `[]`. -/
def get_wallet_transactions (response : HttpSignaturesResponse) :
    Except String (List String) :=
  if response.status_code = 200 then
    match response.body with
    | none => .error "JSONDecodeError"
    | some b =>
      match b.result with
      | none => .ok []
      | some entries =>
        entries.mapM (fun tx =>
          match tx.signature with
          | some s => Except.ok s
          | none => Except.error "KeyError: signature")
  else .ok []

/-- The decoded JSON body of a `getTransaction` response; `result` is read
with `.get("result", {})`, and a `null`/`{}` result is collapsed into the
falsy detail `none`. -/
structure TransactionRpcBody where
  result : Option TransactionDetail
deriving DecidableEq

/-- An HTTP response to the `getTransaction` RPC; `body = none` models a
payload that is not valid JSON. -/
structure HttpTransactionResponse where
  status_code : Nat
  body : Option TransactionRpcBody
deriving DecidableEq

/-- `get_transaction_details` (src/app.py lines 68-72), with the network
exchange replaced by the response it produced: `result` on a 200 status
(default `{}` = `none`), `{}` on any other status, and a raised decode error
for a non-JSON 200 body. -/
def get_transaction_details (response : HttpTransactionResponse) :
    Except String (Option TransactionDetail) :=
  if response.status_code = 200 then
    match response.body with
    | none => .error "JSONDecodeError"
    | some b => .ok b.result
  else .ok none

/-- A network call issued against the ledger RPC endpoint. -/
inductive RpcCall where
  | getSignaturesForAddress : Option String → RpcCall
  | getTransaction : String → RpcCall
deriving DecidableEq

/-- The outcome of the `/trace` request handler: the 404 "No transactions
found" error, an uncaught Python exception, or the success payload.  The
serialized graph of the success payload is produced by the external projector
from the wallet and the flow mapping, so the payload is modelled by the
projector's inputs (`flows`, `volume`) together with the risk string. -/
inductive TraceResponse where
  | notFound
  | pyError (e : String)
  | success (flows : List (String × Nat)) (volume : ℚ) (risk : String)
deriving DecidableEq

/-- The transaction signatures whose details the aggregation loop actually
fetches: one `getTransaction` call per iteration, stopping after the
iteration that raises. -/
def detailCallPrefix (fetch : String → Option TransactionDetail)
    (wallet_address : Option String) : List String → FlowState → List String
  | [], _ => []
  | tx :: rest, st =>
    match processDetails wallet_address st (fetch tx) with
    | .error _ => [tx]
    | .ok st' => tx :: detailCallPrefix fetch wallet_address rest st'

/-- `trace_wallet` (src/app.py lines 152-161), with the two RPC exchanges
replaced by oracles: `listTx` is the (already downgraded) signature listing
for a wallet and `fetch` the (already downgraded) detail lookup.  The handler
reads `data.get("wallet")` (possibly `none`), always issues the signature
listing call first, returns the 404 error when the listing is empty, and
otherwise aggregates, scores (`len(transaction_flows)`, `total_volume`,
`transaction_flows.keys()`) and answers with the success payload.  The second
component records the RPC calls issued, in order. -/
def trace_wallet (listTx : Option String → List String)
    (fetch : String → Option TransactionDetail) (wallet_address : Option String) :
    TraceResponse × List RpcCall :=
  let transactions := listTx wallet_address
  if transactions = [] then
    (.notFound, [.getSignaturesForAddress wallet_address])
  else
    let log := RpcCall.getSignaturesForAddress wallet_address ::
      (detailCallPrefix fetch wallet_address transactions ([], 0)).map RpcCall.getTransaction
    match extract_transaction_flows fetch wallet_address transactions with
    | .error e => (.pyError e, log)
    | .ok (flows, vol) =>
      (.success flows vol (assign_risk_score flows.length vol (flows.map Prod.fst)), log)

/-- Whether an instruction passes both guards of the inner loop: it has a
`parsed.info` block, its `source` equals the queried wallet, and its
`destination` is truthy. -/
def insQualifies (wallet_address : Option String) (ins : Instruction) : Bool :=
  match ins.parsed with
  | none => false
  | some parsed =>
    match parsed.info with
    | none => false
    | some info => decide (info.source = wallet_address ∧ info.destination.getD "" ≠ "")

/-- The destination key an instruction would be counted under (meaningful only
for qualifying instructions). -/
def insDest (ins : Instruction) : String :=
  match ins.parsed with
  | none => ""
  | some parsed =>
    match parsed.info with
    | none => ""
    | some info => info.destination.getD ""

/-- The converted amount of an instruction (`lamports / 1e9`, with the
`lamports` key defaulting to `0`). -/
def insAmount (ins : Instruction) : ℚ :=
  match ins.parsed with
  | none => 0
  | some parsed =>
    match parsed.info with
    | none => 0
    | some info => ((info.lamports.getD 0 : Nat) : ℚ) / 1000000000

/-- The `source` field of an instruction's parsed info, `none` when the
instruction has no parsed info block. -/
def insSource (ins : Instruction) : Option String :=
  match ins.parsed with
  | none => none
  | some parsed =>
    match parsed.info with
    | none => none
    | some info => info.source

/-- Whether an instruction carries the `parsed.info` shape the inner loop
inspects. -/
def insHasParsedInfo (ins : Instruction) : Bool :=
  match ins.parsed with
  | none => false
  | some parsed => parsed.info.isSome

/-- The instruction list reached through
`details["transaction"]["message"]["instructions"]`, empty when any link of
the chain is absent. -/
def insList (details : Option TransactionDetail) : List Instruction :=
  match details with
  | none => []
  | some d =>
    match d.transaction with
    | none => []
    | some t =>
      match t.message with
      | none => []
      | some m => m.instructions.getD []

/-- A detail record on which the aggregation loop does not raise: it is either
skipped by the guard or carries the full
`transaction.message.instructions` chain. -/
def DetailWF (details : Option TransactionDetail) : Bool :=
  match details with
  | none => true
  | some d =>
    match d.transaction with
    | none => true
    | some t =>
      match t.message with
      | none => false
      | some m => m.instructions.isSome

/-- A detail record skipped by the loop guard
(`not details or "transaction" not in details`). -/
def guardSkips (details : Option TransactionDetail) : Bool :=
  match details with
  | none => true
  | some d => d.transaction.isNone

/-- The pure (exception-free) aggregation over a list of signatures, equal to
`extract_transaction_flows` whenever every fetched detail is `DetailWF`. -/
def extractPure (fetch : String → Option TransactionDetail)
    (wallet_address : Option String) (transactions : List String) (st : FlowState) :
    FlowState :=
  transactions.foldl
    (fun st tx => (insList (fetch tx)).foldl (processInstruction wallet_address) st) st

/-- How many qualifying instructions of a list are counted under destination
`a`. -/
def countDest (wallet_address : Option String) (a : String)
    (inss : List Instruction) : Nat :=
  (inss.filter (fun i => insQualifies wallet_address i && insDest i == a)).length

/-- The total converted amount contributed by the qualifying instructions of a
list. -/
def volSum (wallet_address : Option String) (inss : List Instruction) : ℚ :=
  ((inss.filter (insQualifies wallet_address)).map insAmount).sum

/-- Per-transaction count of qualifying instructions toward destination
`a`. -/
def txCount (fetch : String → Option TransactionDetail)
    (wallet_address : Option String) (a : String) (tx : String) : Nat :=
  countDest wallet_address a (insList (fetch tx))

/-- Per-transaction contribution to the total volume. -/
def txVol (fetch : String → Option TransactionDetail)
    (wallet_address : Option String) (tx : String) : ℚ :=
  volSum wallet_address (insList (fetch tx))

/-- Adding `c` occurrences of a key to an optional dict entry: an absent key
stays absent when `c = 0` and otherwise appears with count `c`. -/
def optAdd (o : Option Nat) (c : Nat) : Option Nat :=
  match o with
  | some v => some (v + c)
  | none => if c = 0 then none else some c

/-- A detail record holding exactly one instruction, a parsed transfer from
`src` to `dst` of `lam` lamports (used to state the single-transfer
claims). -/
def singleTransferDetail (src dst : String) (lam : Option Nat) :
    Option TransactionDetail :=
  some ⟨some ⟨some ⟨some [⟨some ⟨some ⟨some src, some dst, lam⟩⟩⟩]⟩⟩⟩

/-- A malformed detail record: truthy, carries the `"transaction"` key (so the
guard does not skip it), but its transaction has no `"message"` key. -/
def badDetail : Option TransactionDetail := some ⟨some ⟨none⟩⟩

theorem dictFind_dictInsert_self (d : List (String × Nat)) (k : String) (v : Nat) :
    dictFind (dictInsert d k v) k = some v := by
  induction d with
  | nil => simp [dictFind, dictInsert]
  | cons p rest ih =>
    obtain ⟨k', v'⟩ := p
    by_cases h : k' = k
    · simp [dictInsert, dictFind, h]
    · simp [dictInsert, dictFind, h, ih]

theorem dictFind_dictInsert_ne (d : List (String × Nat)) (k a : String) (v : Nat)
    (h : k ≠ a) : dictFind (dictInsert d k v) a = dictFind d a := by
  induction d with
  | nil => simp [dictFind, dictInsert, h]
  | cons p rest ih =>
    obtain ⟨k', v'⟩ := p
    by_cases hk : k' = k
    · subst hk
      simp [dictInsert, dictFind, h]
    · simp [dictInsert, dictFind, hk, ih]

theorem optAdd_zero (o : Option Nat) : optAdd o 0 = o := by
  cases o <;> simp [optAdd]

theorem optAdd_one (o : Option Nat) : some (o.getD 0 + 1) = optAdd o 1 := by
  cases o <;> simp [optAdd]

theorem optAdd_optAdd (o : Option Nat) (c₁ c₂ : Nat) :
    optAdd (optAdd o c₁) c₂ = optAdd o (c₁ + c₂) := by
  cases o with
  | some v => simp [optAdd, Nat.add_assoc]
  | none =>
    by_cases h1 : c₁ = 0
    · subst h1; simp [optAdd]
    · have hne : c₁ + c₂ ≠ 0 := by omega
      by_cases h2 : c₂ = 0
      · subst h2; simp [optAdd, h1]
      · simp [optAdd, h1, h2, hne]

theorem processInstruction_eq (w : Option String) (st : FlowState) (ins : Instruction) :
    processInstruction w st ins =
      if insQualifies w ins then
        (dictInsert st.1 (insDest ins) ((dictFind st.1 (insDest ins)).getD 0 + 1),
         st.2 + insAmount ins)
      else st := by
  obtain ⟨p⟩ := ins
  cases p with
  | none => simp [processInstruction, insQualifies]
  | some parsed =>
    obtain ⟨info⟩ := parsed
    cases info with
    | none => simp [processInstruction, insQualifies]
    | some i =>
      by_cases h : i.source = w ∧ i.destination.getD "" ≠ ""
      · simp [processInstruction, insQualifies, insDest, insAmount, h]
      · simp [processInstruction, insQualifies, insDest, insAmount, h]

theorem foldl_processInstruction_snd (w : Option String) (inss : List Instruction) :
    ∀ st : FlowState, (inss.foldl (processInstruction w) st).2 = st.2 + volSum w inss := by
  induction inss with
  | nil => intro st; simp [volSum]
  | cons i rest ih =>
    intro st
    rw [List.foldl_cons, ih, processInstruction_eq]
    cases hq : insQualifies w i with
    | false => simp [volSum, List.filter_cons, hq]
    | true => simp [volSum, List.filter_cons, hq, add_assoc]

theorem foldl_processInstruction_find (w : Option String) (a : String)
    (inss : List Instruction) :
    ∀ st : FlowState, dictFind (inss.foldl (processInstruction w) st).1 a =
      optAdd (dictFind st.1 a) (countDest w a inss) := by
  induction inss with
  | nil => intro st; simp [countDest, optAdd_zero]
  | cons i rest ih =>
    intro st
    rw [List.foldl_cons, ih, processInstruction_eq]
    cases hq : insQualifies w i with
    | false => simp [countDest, List.filter_cons, hq]
    | true =>
      by_cases hd : insDest i = a
      · subst hd
        have hcount : countDest w (insDest i) (i :: rest)
            = countDest w (insDest i) rest + 1 := by
          simp [countDest, List.filter_cons, hq]
        simp only [if_true, eq_self_iff_true, if_pos]
        rw [hcount, dictFind_dictInsert_self, optAdd_one, optAdd_optAdd, Nat.add_comm 1 _]
      · have hcount : countDest w a (i :: rest) = countDest w a rest := by
          simp [countDest, List.filter_cons, hq, hd]
        simp only [if_true, eq_self_iff_true, if_pos]
        rw [hcount, dictFind_dictInsert_ne _ _ _ _ hd]

theorem foldl_processInstruction_id (w : Option String) (inss : List Instruction)
    (h : ∀ i ∈ inss, insQualifies w i = false) :
    ∀ st : FlowState, inss.foldl (processInstruction w) st = st := by
  induction inss with
  | nil => intro st; rfl
  | cons i rest ih =>
    intro st
    rw [List.foldl_cons, processInstruction_eq]
    simp only [h i (by simp), Bool.false_eq_true, if_false]
    exact ih (fun j hj => h j (by simp [hj])) st

theorem processDetails_wf (w : Option String) (st : FlowState)
    (d : Option TransactionDetail) (h : DetailWF d = true) :
    processDetails w st d = .ok ((insList d).foldl (processInstruction w) st) := by
  match d with
  | none => rfl
  | some ⟨none⟩ => rfl
  | some ⟨some ⟨none⟩⟩ => simp [DetailWF] at h
  | some ⟨some ⟨some ⟨none⟩⟩⟩ => simp [DetailWF] at h
  | some ⟨some ⟨some ⟨some inss⟩⟩⟩ => rfl

theorem extractLoop_wf (fetch : String → Option TransactionDetail)
    (w : Option String) (txs : List String) :
    ∀ st : FlowState, (∀ tx ∈ txs, DetailWF (fetch tx) = true) →
      extractLoop fetch w txs st = .ok (extractPure fetch w txs st) := by
  induction txs with
  | nil => intro st _; rfl
  | cons tx rest ih =>
    intro st h
    have htx := h tx (by simp)
    have hstep : extractLoop fetch w (tx :: rest) st
        = extractLoop fetch w rest ((insList (fetch tx)).foldl (processInstruction w) st) := by
      simp only [extractLoop, processDetails_wf w st (fetch tx) htx]
    rw [hstep]
    exact ih _ (fun t ht => h t (by simp [ht]))

theorem extractPure_snd (fetch : String → Option TransactionDetail)
    (w : Option String) (txs : List String) :
    ∀ st : FlowState,
      (extractPure fetch w txs st).2 = st.2 + (txs.map (txVol fetch w)).sum := by
  induction txs with
  | nil => intro st; simp [extractPure]
  | cons tx rest ih =>
    intro st
    simp only [extractPure, List.foldl_cons] at ih ⊢
    rw [ih, foldl_processInstruction_snd]
    simp [txVol, add_assoc]

theorem extractPure_find (fetch : String → Option TransactionDetail)
    (w : Option String) (a : String) (txs : List String) :
    ∀ st : FlowState, dictFind (extractPure fetch w txs st).1 a =
      optAdd (dictFind st.1 a) ((txs.map (txCount fetch w a)).sum) := by
  induction txs with
  | nil => intro st; simp [extractPure, optAdd_zero]
  | cons tx rest ih =>
    intro st
    simp only [extractPure, List.foldl_cons] at ih ⊢
    rw [ih, foldl_processInstruction_find, optAdd_optAdd]
    simp [txCount]

theorem extractPure_id (fetch : String → Option TransactionDetail)
    (w : Option String) (txs : List String)
    (h : ∀ tx ∈ txs, ∀ i ∈ insList (fetch tx), insQualifies w i = false) :
    ∀ st : FlowState, extractPure fetch w txs st = st := by
  induction txs with
  | nil => intro st; rfl
  | cons tx rest ih =>
    intro st
    simp only [extractPure, List.foldl_cons] at ih ⊢
    rw [foldl_processInstruction_id w _ (h tx (by simp)) st]
    exact ih (fun t ht => h t (by simp [ht])) st

theorem insQualifies_false_of_source_ne (wa : Option String) (i : Instruction)
    (h : insSource i ≠ wa) : insQualifies wa i = false := by
  obtain ⟨p⟩ := i
  cases p with
  | none => rfl
  | some parsed =>
    obtain ⟨info⟩ := parsed
    cases info with
    | none => rfl
    | some pinfo =>
      have : pinfo.source ≠ wa := by
        simpa [insSource] using h
      simp [insQualifies, this]

/-- Claim C1: for a single transaction containing exactly one qualifying
transfer (parsed info with `source = walletAddress` exactly and a non-empty
destination) of `amt` lamports, `extract_transaction_flows` returns a mapping
with exactly one entry, keyed by that destination with count 1, and a total
volume of `amt / 1e9`. -/
theorem extract_single_qualifying_transfer (w dst sig : String) (amt : Nat)
    (h : dst ≠ "") :
    extract_transaction_flows (fun _ => singleTransferDetail w dst (some amt))
      (some w) [sig] = .ok ([(dst, 1)], (amt : ℚ) / 1000000000) := by
  simp [extract_transaction_flows, extractLoop, processDetails, singleTransferDetail,
        processInstruction, dictInsert, dictFind, h]

/-- Witness for C1 at wallet `"W1"`, destination `"A"`, 5000000000 lamports. -/
theorem extract_single_qualifying_transfer_witness :
    extract_transaction_flows (fun _ => singleTransferDetail "W1" "A" (some 5000000000))
      (some "W1") ["sig1"] = .ok ([("A", 1)], (5000000000 : ℚ) / 1000000000) :=
  extract_single_qualifying_transfer "W1" "A" "sig1" 5000000000 (by decide)

/-- Claim C2: `assign_risk_score` is exactly the tiered pure function the spec
describes (+20 for more than 50 counterparties, +30 for volume above 10000,
+50 for a denylisted counterparty; High at score 50, Medium at 30, else Low);
in particular a lone denylisted counterparty yields High, all-zero inputs
yield Low, and volume 10001 alone yields Medium. -/
theorem assign_risk_score_tiered_spec :
    (∀ (tc : Nat) (vol : ℚ) (cps : List String),
        assign_risk_score tc vol cps = tieredRiskSpec tc vol cps) ∧
    assign_risk_score 0 0 [] = "Low Risk" ∧
    assign_risk_score 1 0 ["FakeRiskyWallet123"] = "High Risk" ∧
    assign_risk_score 0 10001 [] = "Medium Risk" := by
  refine ⟨?_, ?_, ?_, ?_⟩
  · intro tc vol cps
    simp only [assign_risk_score, tieredRiskSpec]
    split_ifs <;> rfl
  · rfl
  · rfl
  · norm_num [assign_risk_score]

/-- Claim C3: whenever no instruction in any fetched (well-formed) detail has
`source = walletAddress`, `extract_transaction_flows` returns the empty
mapping and total volume 0. -/
theorem extract_no_matching_source_empty (fetch : String → Option TransactionDetail)
    (w : String) (txs : List String)
    (hwf : ∀ tx ∈ txs, DetailWF (fetch tx) = true)
    (hsrc : ∀ tx ∈ txs, ∀ i ∈ insList (fetch tx), insSource i ≠ some w) :
    extract_transaction_flows fetch (some w) txs = .ok ([], 0) := by
  rw [extract_transaction_flows, extractLoop_wf fetch (some w) txs ([], 0) hwf,
    extractPure_id fetch (some w) txs
      (fun tx htx i hi => insQualifies_false_of_source_ne _ _ (hsrc tx htx i hi)) ([], 0)]

/-- Witness for C3: a transfer from `"X"` observed while tracing `"W1"`
contributes nothing. -/
theorem extract_no_matching_source_empty_witness :
    extract_transaction_flows (fun _ => singleTransferDetail "X" "B" (some 7))
      (some "W1") ["s1"] = .ok ([], 0) :=
  extract_no_matching_source_empty _ "W1" ["s1"] (by decide) (by decide)

/-- Claim C4: permuting the input transaction sequence leaves the
per-destination aggregate counts and the total volume (exact in `ℚ`)
unchanged. -/
theorem extract_perm_invariant (fetch : String → Option TransactionDetail)
    (w : Option String) (txs txs' : List String)
    (hperm : txs.Perm txs') (hwf : ∀ tx ∈ txs, DetailWF (fetch tx) = true) :
    ∃ d v d' v', extract_transaction_flows fetch w txs = .ok (d, v) ∧
      extract_transaction_flows fetch w txs' = .ok (d', v') ∧
      v = v' ∧ ∀ a, dictFind d a = dictFind d' a := by
  have hwf' : ∀ tx ∈ txs', DetailWF (fetch tx) = true := fun tx ht =>
    hwf tx (hperm.mem_iff.mpr ht)
  refine ⟨(extractPure fetch w txs ([], 0)).1, (extractPure fetch w txs ([], 0)).2,
    (extractPure fetch w txs' ([], 0)).1, (extractPure fetch w txs' ([], 0)).2,
    ?_, ?_, ?_, ?_⟩
  · rw [extract_transaction_flows, extractLoop_wf fetch w txs ([], 0) hwf]
  · rw [extract_transaction_flows, extractLoop_wf fetch w txs' ([], 0) hwf']
  · rw [extractPure_snd, extractPure_snd, (hperm.map (txVol fetch w)).sum_eq]
  · intro a
    rw [extractPure_find, extractPure_find, (hperm.map (txCount fetch w a)).sum_eq]

/-- Witness for C4: two transfers fetched in either order give the same
counts and total. -/
theorem extract_perm_invariant_witness :
    ∃ d v d' v',
      extract_transaction_flows
        (fun s => if s = "s1" then singleTransferDetail "W1" "A" (some 1)
                  else singleTransferDetail "W1" "B" (some 2))
        (some "W1") ["s1", "s2"] = .ok (d, v) ∧
      extract_transaction_flows
        (fun s => if s = "s1" then singleTransferDetail "W1" "A" (some 1)
                  else singleTransferDetail "W1" "B" (some 2))
        (some "W1") ["s2", "s1"] = .ok (d', v') ∧
      v = v' ∧ ∀ a, dictFind d a = dictFind d' a :=
  extract_perm_invariant _ (some "W1") ["s1", "s2"] ["s2", "s1"]
    (List.Perm.swap "s2" "s1" []) (by decide)

/-- Counterexample to C5 as stated: a truthy detail that has the
`"transaction"` key but no `"message"` key is not silently skipped — the
aggregation loop raises a `KeyError` instead of continuing. -/
theorem extract_raises_on_missing_message :
    extract_transaction_flows (fun _ => badDetail) (some "W1") ["sig1"]
      = .error "KeyError: message" := rfl

/-- Claim C5, amended: the loop silently skips (contributing nothing, raising
nothing) exactly the transactions caught by the guard — a falsy detail or one
without the `"transaction"` key — and, inside a transaction, instructions
without the `parsed.info` shape; a detail that passes the guard but lacks
`message`/`instructions` raises instead. -/
theorem extract_guard_skip_behavior (w : Option String) :
    (∀ (st : FlowState) (d : Option TransactionDetail),
        guardSkips d = true → processDetails w st d = .ok st) ∧
    (∀ (st : FlowState) (ins : Instruction),
        insHasParsedInfo ins = false → processInstruction w st ins = st) ∧
    (∀ (fetch : String → Option TransactionDetail) (txs : List String),
        (∀ tx ∈ txs, guardSkips (fetch tx) = true) →
        extract_transaction_flows fetch w txs = .ok ([], 0)) := by
  refine ⟨?_, ?_, ?_⟩
  · intro st d hd
    match d with
    | none => rfl
    | some ⟨none⟩ => rfl
    | some ⟨some t⟩ => simp [guardSkips] at hd
  · intro st ins hins
    match ins with
    | ⟨none⟩ => rfl
    | ⟨some ⟨none⟩⟩ => rfl
    | ⟨some ⟨some i⟩⟩ => simp [insHasParsedInfo] at hins
  · intro fetch txs hall
    have hwf : ∀ tx ∈ txs, DetailWF (fetch tx) = true := by
      intro tx htx
      have hg := hall tx htx
      match hfetch : fetch tx with
      | none => rfl
      | some ⟨none⟩ => rfl
      | some ⟨some t⟩ => rw [hfetch] at hg; simp [guardSkips] at hg
    have hq : ∀ tx ∈ txs, ∀ i ∈ insList (fetch tx), insQualifies w i = false := by
      intro tx htx i hi
      exfalso
      have hg := hall tx htx
      match hfetch : fetch tx with
      | none => rw [hfetch] at hi; simp [insList] at hi
      | some ⟨none⟩ => rw [hfetch] at hi; simp [insList] at hi
      | some ⟨some t⟩ => rw [hfetch] at hg; simp [guardSkips] at hg
    rw [extract_transaction_flows, extractLoop_wf fetch w txs ([], 0) hwf,
      extractPure_id fetch w txs hq ([], 0)]

/-- Witness for the amended C5: an absent detail, a parse-less instruction and
an all-skipped transaction list each leave the state untouched. -/
theorem extract_guard_skip_behavior_witness :
    processDetails (some "W1") ([], 0) none = .ok ([], 0) ∧
    processInstruction (some "W1") ([], 0) ⟨none⟩ = ([], 0) ∧
    extract_transaction_flows (fun _ => none) (some "W1") ["s1"] = .ok ([], 0) :=
  ⟨(extract_guard_skip_behavior (some "W1")).1 ([], 0) none (by decide),
   (extract_guard_skip_behavior (some "W1")).2.1 ([], 0) ⟨none⟩ (by decide),
   (extract_guard_skip_behavior (some "W1")).2.2 (fun _ => none) ["s1"] (by decide)⟩

/-- Claim C9: a qualifying transfer with no `lamports` key is still counted —
the destination's count goes up by 1 and `0` is added to the total volume
(the missing amount defaults to 0 rather than disqualifying the transfer). -/
theorem extract_missing_lamports_counts (w dst sig : String) (h : dst ≠ "")
    (st : FlowState) :
    processInstruction (some w) st ⟨some ⟨some ⟨some w, some dst, none⟩⟩⟩
      = (dictInsert st.1 dst ((dictFind st.1 dst).getD 0 + 1), st.2) ∧
    extract_transaction_flows (fun _ => singleTransferDetail w dst none) (some w) [sig]
      = .ok ([(dst, 1)], 0) := by
  constructor
  · simp [processInstruction, h]
  · simp [extract_transaction_flows, extractLoop, processDetails, singleTransferDetail,
          processInstruction, dictInsert, dictFind, h]

/-- Witness for C9 at wallet `"W1"`, destination `"A"`. -/
theorem extract_missing_lamports_counts_witness :
    processInstruction (some "W1") ([], 0) ⟨some ⟨some ⟨some "W1", some "A", none⟩⟩⟩
      = (dictInsert [] "A" ((dictFind [] "A").getD 0 + 1), 0) ∧
    extract_transaction_flows (fun _ => singleTransferDetail "W1" "A" none)
      (some "W1") ["s1"] = .ok ([("A", 1)], 0) :=
  extract_missing_lamports_counts "W1" "A" "s1" (by decide) ([], 0)

/-- Claim C10: a self-transfer (source and destination both the non-empty
queried wallet) is counted as outgoing flow — the wallet itself becomes a
counterparty key, its count is bumped and the amount is added to the total
volume. -/
theorem extract_self_transfer_counts (w sig : String) (h : w ≠ "") (amt : Nat)
    (st : FlowState) :
    processInstruction (some w) st ⟨some ⟨some ⟨some w, some w, some amt⟩⟩⟩
      = (dictInsert st.1 w ((dictFind st.1 w).getD 0 + 1),
         st.2 + (amt : ℚ) / 1000000000) ∧
    extract_transaction_flows (fun _ => singleTransferDetail w w (some amt)) (some w) [sig]
      = .ok ([(w, 1)], (amt : ℚ) / 1000000000) := by
  constructor
  · simp [processInstruction, h]
  · simp [extract_transaction_flows, extractLoop, processDetails, singleTransferDetail,
          processInstruction, dictInsert, dictFind, h]

/-- Witness for C10 at wallet `"W1"`, 9 lamports. -/
theorem extract_self_transfer_counts_witness :
    processInstruction (some "W1") ([], 0) ⟨some ⟨some ⟨some "W1", some "W1", some 9⟩⟩⟩
      = (dictInsert [] "W1" ((dictFind [] "W1").getD 0 + 1), 0 + (9 : ℚ) / 1000000000) ∧
    extract_transaction_flows (fun _ => singleTransferDetail "W1" "W1" (some 9))
      (some "W1") ["s1"] = .ok ([("W1", 1)], (9 : ℚ) / 1000000000) :=
  extract_self_transfer_counts "W1" "s1" (by decide) 9 ([], 0)

/-- Counterexample to C6 as stated: with `walletAddress = ""` the handler does
not reject — it issues the signature-listing RPC call (and then a detail
fetch) with the empty wallet and answers with a normal success payload; no
`InvalidInput` error path exists in the code at all (the response type has no
such constructor because the source has no such branch). -/
theorem trace_wallet_empty_wallet_calls_network :
    trace_wallet (fun _ => ["s1"]) (fun _ => none) (some "")
      = (.success [] 0 "Low Risk",
         [.getSignaturesForAddress (some ""), .getTransaction "s1"]) := rfl

/-- Claim C6, amended: an empty or absent wallet address is not validated —
the handler performs the signature-listing network call first in every case,
and when that listing is empty the outcome is the "No transactions found"
error, never an `InvalidInput` rejection. -/
theorem trace_wallet_no_input_validation
    (listTx : Option String → List String)
    (fetch : String → Option TransactionDetail) (w : Option String)
    (hw : w = none ∨ w = some "") :
    (trace_wallet listTx fetch w).2.head? = some (.getSignaturesForAddress w) ∧
    (listTx w = [] → (trace_wallet listTx fetch w).1 = .notFound) := by
  constructor
  · cases hex : extract_transaction_flows fetch w (listTx w) with
    | error e =>
      by_cases h : listTx w = []
      · simp [trace_wallet, h]
      · simp [trace_wallet, h, hex]
    | ok st =>
      obtain ⟨flows, vol⟩ := st
      by_cases h : listTx w = []
      · simp [trace_wallet, h]
      · simp [trace_wallet, h, hex]
  · intro h
    simp [trace_wallet, h]

/-- Witness for the amended C6 at `walletAddress = ""` with an empty
listing. -/
theorem trace_wallet_no_input_validation_witness :
    (trace_wallet (fun _ => []) (fun _ => none) (some "")).2.head?
      = some (.getSignaturesForAddress (some "")) ∧
    (trace_wallet (fun _ => []) (fun _ => none) (some "")).1 = .notFound :=
  ⟨(trace_wallet_no_input_validation _ _ (some "") (Or.inr rfl)).1,
   (trace_wallet_no_input_validation _ _ (some "") (Or.inr rfl)).2 rfl⟩

/-- Counterexample to C7 as stated: a success-status (200) response whose
payload is not valid JSON makes the signature-listing client raise (from
`response.json()`) instead of returning an empty sequence. -/
theorem get_wallet_transactions_raises_on_bad_json :
    get_wallet_transactions ⟨200, none⟩ = .error "JSONDecodeError" := rfl

/-- Claim C7, amended: both client calls downgrade a non-success status, and a
missing `result` field, to an empty result — but they do raise on a
success-status response whose payload is not decodable JSON (and the listing
additionally raises on an entry without a `signature` field), so the client is
not raise-free for malformed payloads. -/
theorem ledger_client_empty_on_failure :
    (∀ r : HttpSignaturesResponse, r.status_code ≠ 200 →
        get_wallet_transactions r = .ok []) ∧
    get_wallet_transactions ⟨200, some ⟨none⟩⟩ = .ok [] ∧
    (∀ r : HttpTransactionResponse, r.status_code ≠ 200 →
        get_transaction_details r = .ok none) ∧
    get_transaction_details ⟨200, some ⟨none⟩⟩ = .ok none := by
  refine ⟨?_, rfl, ?_, rfl⟩
  · intro r h
    simp [get_wallet_transactions, h]
  · intro r h
    simp [get_transaction_details, h]

/-- Witness for the amended C7 at status 500. -/
theorem ledger_client_empty_on_failure_witness :
    get_wallet_transactions ⟨500, some ⟨some [⟨some "sigX"⟩]⟩⟩ = .ok [] ∧
    get_transaction_details ⟨500, none⟩ = .ok none :=
  ⟨ledger_client_empty_on_failure.1 _ (by decide),
   ledger_client_empty_on_failure.2.2.1 _ (by decide)⟩

/-- Counterexample to C8 as stated: a non-empty listing whose (single)
transaction detail is malformed past the guard makes the handler raise (HTTP
500), so "otherwise it returns a success payload" fails. -/
theorem trace_wallet_malformed_detail_not_success :
    trace_wallet (fun _ => ["s1"]) (fun _ => badDetail) (some "W1")
      = (.pyError "KeyError: message",
         [.getSignaturesForAddress (some "W1"), .getTransaction "s1"]) := rfl

/-- Claim C8, amended: the handler answers "No transactions found" exactly
when the signature listing is empty; for a non-empty listing it returns the
success payload (serialized-graph inputs plus risk indicator) provided every
fetched detail is well-formed — a malformed detail raises instead. -/
theorem trace_wallet_notFound_iff_empty
    (listTx : Option String → List String)
    (fetch : String → Option TransactionDetail) (w : Option String) :
    ((trace_wallet listTx fetch w).1 = .notFound ↔ listTx w = []) ∧
    (listTx w ≠ [] → (∀ tx ∈ listTx w, DetailWF (fetch tx) = true) →
      ∃ flows vol risk, (trace_wallet listTx fetch w).1 = .success flows vol risk) := by
  constructor
  · constructor
    · intro h
      by_contra hne
      cases hex : extract_transaction_flows fetch w (listTx w) with
      | error e => simp [trace_wallet, hne, hex] at h
      | ok st =>
        obtain ⟨flows, vol⟩ := st
        simp [trace_wallet, hne, hex] at h
    · intro h
      simp [trace_wallet, h]
  · intro hne hwf
    have hex : extract_transaction_flows fetch w (listTx w)
        = .ok (extractPure fetch w (listTx w) ([], 0)) :=
      extractLoop_wf fetch w (listTx w) ([], 0) hwf
    exact ⟨(extractPure fetch w (listTx w) ([], 0)).1,
      (extractPure fetch w (listTx w) ([], 0)).2,
      assign_risk_score (extractPure fetch w (listTx w) ([], 0)).1.length
        (extractPure fetch w (listTx w) ([], 0)).2
        ((extractPure fetch w (listTx w) ([], 0)).1.map Prod.fst),
      by simp [trace_wallet, hne, hex]⟩

/-- Witness for the amended C8: an empty listing gives the not-found error and
a non-empty, well-formed one gives a success payload. -/
theorem trace_wallet_notFound_iff_empty_witness :
    (trace_wallet (fun _ => []) (fun _ => none) (some "W2")).1 = .notFound ∧
    ∃ flows vol risk,
      (trace_wallet (fun _ => ["s1"]) (fun _ => none) (some "W1")).1
        = .success flows vol risk :=
  ⟨(trace_wallet_notFound_iff_empty (fun _ => []) (fun _ => none) (some "W2")).1.mpr rfl,
   (trace_wallet_notFound_iff_empty (fun _ => ["s1"]) (fun _ => none) (some "W1")).2
     (by decide) (by decide)⟩
